import Mathlib

/-!
Shallow embedding of the git-worktree terminal application
(ribeirolabs/git-worktree-app), covering the state machine, the action
registry with its keyboard dispatch loop, the task-refetch flow, the
run-once guard, the file store and the selection navigation.

Sources embedded:
  - src/index.ts     (current TypeScript entry point: action setup, render
                      loop status maintenance, stdin dispatch loop, task
                      refetching, delete flow)
  - src/index.js     (earlier JavaScript entry point: the State object with
                      toMode / previousMode, selectNext / selectPrevious)
  - src/utils.ts     (runOnce)
  - src/service/file-store.ts (FileStore.read / FileStore.write)

The App object (src/app.ts) is imported by src/index.ts but its file is not
among the sources; where its behaviour is needed it is modelled from the
specification (sections 3, 4.2 and 4.4) and from the corresponding concrete
code of the State object in src/index.js, and each such definition carries a
doc comment saying so.
-/

namespace WorktreeApp

/-- A status message: severity tag, message text and the optional auto-expiry
timeout in milliseconds (`none` means the status is sticky until cleared). -/
structure Status where
  type : String
  message : String
  timeout : Option Nat
  deriving DecidableEq

/-- Whether JavaScript `s.includes(pat)` holds: `pat` occurs contiguously in
`s` (decidable infix test on the character lists). -/
def strIncludes (s pat : String) : Bool :=
  decide (pat.toList <:+: s.toList)

/-! ## The State object of src/index.js (navigation fields)

`State.toMode` / `State.previousMode` at src/index.js lines 779-792. -/

/-- The fields of the `State` object of src/index.js that the navigation
transitions touch: the current mode (page), the single-slot previous mode
(`_lastMode`, `null` initially, modelled as `Option`), and the text input
buffer `input`. -/
structure StateJS where
  mode : String
  lastMode : Option String
  inputStr : String
  deriving DecidableEq

/-- `State.toMode(mode)` from src/index.js lines 779-786: records the current
mode in `_lastMode`, sets the current mode, and clears the text input buffer
exactly when the target mode is `"token"`. -/
def toMode (s : StateJS) (m : String) : StateJS :=
  { mode := m
    lastMode := some s.mode
    inputStr := if m = "token" then "" else s.inputStr }

/-- `State.previousMode()` from src/index.js lines 787-792: if `_lastMode` is
recorded (non-null; mode strings are never empty, so JS truthiness is
non-nullness), transition to it through `toMode`; otherwise do nothing. -/
def previousMode (s : StateJS) : StateJS :=
  match s.lastMode with
  | some last => toMode s last
  | none => s

/-! ## selectNext / selectPrevious of src/index.js lines 434-440 and 1267-1273

`State.selected` is a JS number, modelled as `Int`; `State.paths.length` is a
natural number. -/

/-- `selectNext()`: `State.selected = Math.min(State.paths.length - 1,
State.selected + 1)`. -/
def selectNext (pathsLength : Nat) (selected : Int) : Int :=
  min ((pathsLength : Int) - 1) (selected + 1)

/-- `selectPrevious()`: `State.selected = Math.max(0, State.selected - 1)`. -/
def selectPrevious (selected : Int) : Int :=
  max 0 (selected - 1)

/-! ## FileStore of src/service/file-store.ts

File contents are modelled as character lists. -/

/-- The backing file of one named FileStore slot. -/
structure FileStore where
  contents : List Char
  deriving DecidableEq

/-- `FileStore.write(content)` (src/service/file-store.ts lines 30-32):
`writeFileSync` replaces the file contents verbatim. -/
def FileStore.write (_fs : FileStore) (content : List Char) : FileStore :=
  { contents := content }

/-- `FileStore.read()` (src/service/file-store.ts lines 24-28): `readFileSync`
followed by `.replace` with an end-anchored newline pattern, which removes the
final character exactly when it is a newline (never more than one). -/
def FileStore.read (fs : FileStore) : List Char :=
  match fs.contents.getLast? with
  | some c => if c = '\n' then fs.contents.dropLast else fs.contents
  | none => fs.contents

/-! ## runOnce of src/utils.ts lines 31-41

The module-level `_running` record is modelled as the list of ids currently
marked running, and `runOnce` as a state transformer returning the record
afterwards together with whether the callback body was executed. The source
returns early when `_running[id]` is truthy, and otherwise calls
`cb(resolve)`; no statement in the source ever assigns `_running[id]`, so the
record is returned unchanged in both branches. -/

/-- `runOnce(id, cb)` from src/utils.ts: the returned Bool says whether `cb`
was invoked. -/
def runOnce (running : List String) (id : String) : List String × Bool :=
  if running.contains id then (running, false) else (running, true)

/-- The `resolve` closure handed to the callback by `runOnce`: deletes
`_running[id]`. -/
def runOnceResolve (running : List String) (id : String) : List String :=
  running.erase id

/-! ## Theorems for claims C4, C6, C9, C10 -/

/-- C4: for every page `m`, `toMode` stores the current mode as the single
remembered previous mode and makes `m` current, clearing the in-progress text
input buffer exactly when `m` is the token page; `previousMode` transitions
back to the remembered previous mode and is a no-op when none is recorded. -/
theorem toMode_previousMode_spec (s : StateJS) (m p : String) :
    (toMode s m).lastMode = some s.mode ∧
    (toMode s m).mode = m ∧
    (m = "token" → (toMode s m).inputStr = "") ∧
    (m ≠ "token" → (toMode s m).inputStr = s.inputStr) ∧
    (s.lastMode = none → previousMode s = s) ∧
    (s.lastMode = some p → (previousMode s).mode = p) := by
  refine ⟨rfl, rfl, ?_, ?_, ?_, ?_⟩
  · intro h; simp [toMode, h]
  · intro h; simp [toMode, h]
  · intro h; simp [previousMode, h]
  · intro h; simp [previousMode, toMode, h]

/-- Witness for C4 at a concrete state: entering the token page clears the
buffer, previousMode is a no-op with no recorded mode, and returns to the
recorded mode otherwise. -/
theorem toMode_previousMode_spec_witness :
    (toMode ⟨"idle", none, "abc"⟩ "token").inputStr = "" ∧
    previousMode ⟨"idle", none, "abc"⟩ = ⟨"idle", none, "abc"⟩ ∧
    (previousMode ⟨"update", some "idle", ""⟩).mode = "idle" :=
  ⟨(toMode_previousMode_spec ⟨"idle", none, "abc"⟩ "token" "x").2.2.1 rfl,
   (toMode_previousMode_spec ⟨"idle", none, "abc"⟩ "token" "x").2.2.2.2.1 rfl,
   (toMode_previousMode_spec ⟨"update", some "idle", ""⟩ "x" "idle").2.2.2.2.2 rfl⟩

/-- C6 (code bug): `runOnce` never marks an id as running — the `_running`
record is returned unchanged by every call — so a second call with the same id
issued while the first is still pending (its resolve not yet invoked) executes
its callback body again. Evaluated at the failing input: two consecutive
`runOnce "load-statuses"` calls, starting from the empty record, with no
resolve in between; both calls execute their callback. -/
theorem runOnce_duplicate_concurrent_call_executes :
    (∀ (running : List String) (id : String), (runOnce running id).1 = running) ∧
    (runOnce [] "load-statuses").2 = true ∧
    (runOnce (runOnce [] "load-statuses").1 "load-statuses").2 = true := by
  refine ⟨?_, by decide, by decide⟩
  intro running id
  unfold runOnce
  split <;> rfl

/-- C9: writing content to a FileStore slot and reading it back strips at most
one trailing newline; contents not ending in a newline round-trip exactly, and
a single appended trailing newline is stripped by read. -/
theorem fileStore_read_write (fs : FileStore) (content : List Char) :
    ((FileStore.write fs content).read = content ∨
      content = (FileStore.write fs content).read ++ ['\n']) ∧
    (content.getLast? ≠ some '\n' → (FileStore.write fs content).read = content) ∧
    (FileStore.write fs (content ++ ['\n'])).read = content := by
  rcases List.eq_nil_or_concat content with h | ⟨l, a, h⟩
  · subst h
    refine ⟨Or.inl rfl, fun _ => rfl, ?_⟩
    simp [FileStore.write, FileStore.read]
  · subst h
    constructor
    · by_cases ha : a = '\n'
      · subst ha
        refine Or.inr ?_
        simp [FileStore.write, FileStore.read, List.getLast?_concat]
      · refine Or.inl ?_
        simp [FileStore.write, FileStore.read, List.getLast?_concat, ha]
    · constructor
      · intro hne
        have ha : a ≠ '\n' := by
          intro hc; exact hne (by simp [List.getLast?_concat, hc])
        simp [FileStore.write, FileStore.read, List.getLast?_concat, ha]
      · have : (l ++ [a]) ++ ['\n'] = l ++ [a] ++ ['\n'] := rfl
        simp [FileStore.write, FileStore.read, List.getLast?_concat]

/-- Witness for C9 at concrete contents: "abc" round-trips unchanged. -/
theorem fileStore_read_write_witness :
    (['a', 'b', 'c'].getLast? ≠ some '\n') ∧
    (FileStore.write ⟨[]⟩ ['a', 'b', 'c']).read = ['a', 'b', 'c'] :=
  ⟨by decide, (fileStore_read_write ⟨[]⟩ ['a', 'b', 'c']).2.1 (by decide)⟩

/-- C10: with a non-empty paths list and the selected index in range,
`selectNext` moves to `min (selected + 1) (length - 1)` and `selectPrevious`
to `max (selected - 1) 0`, so both keep the selection inside
`[0, length - 1]`. -/
theorem select_preserves_range (pathsLength : Nat) (selected : Int)
    (hne : 1 ≤ pathsLength) (h0 : 0 ≤ selected)
    (h1 : selected ≤ (pathsLength : Int) - 1) :
    selectNext pathsLength selected = min ((pathsLength : Int) - 1) (selected + 1) ∧
    0 ≤ selectNext pathsLength selected ∧
    selectNext pathsLength selected ≤ (pathsLength : Int) - 1 ∧
    selectPrevious selected = max 0 (selected - 1) ∧
    0 ≤ selectPrevious selected ∧
    selectPrevious selected ≤ (pathsLength : Int) - 1 := by
  unfold selectNext selectPrevious
  omega

/-- Witness for C10 at a concrete list length and index. -/
theorem select_preserves_range_witness :
    0 ≤ selectNext 3 1 ∧ selectNext 3 1 ≤ (3 : Int) - 1 ∧
    0 ≤ selectPrevious 0 ∧ selectPrevious 0 ≤ (3 : Int) - 1 :=
  ⟨(select_preserves_range 3 1 (by decide) (by decide) (by decide)).2.1,
   (select_preserves_range 3 1 (by decide) (by decide) (by decide)).2.2.1,
   (select_preserves_range 3 0 (by decide) (by decide) (by decide)).2.2.2.2.1,
   (select_preserves_range 3 0 (by decide) (by decide) (by decide)).2.2.2.2.2⟩

/-! ## The action registry and the stdin dispatch loop

`App.actions` entries follow the Action shape of the repository (label,
shortcut set, disabled and hidden flags; see the Action typedef in
src/index.js lines 738-744 and the predicates used at src/index.ts lines
323-343 and 783-792). `disabled` and `hidden` are the values of the
respective predicates at the moment of dispatch/rendering. -/

/-- One entry of the live action list `App.actions`. -/
structure Action where
  label : String
  shortcut : List String
  disabled : Bool
  hidden : Bool
  deriving DecidableEq

/-- Whether the dispatch loop fires an action for a key: the action is not
disabled and its shortcut set contains the key (src/index.ts lines 784-788). -/
def eligible (key : String) (a : Action) : Bool :=
  !a.disabled && a.shortcut.contains key

/-- The dispatch loop of the stdin data handler (src/index.ts lines 783-792;
same loop with the enabled predicate inverted at src/index.js lines
1416-1425): iterate `App.actions` in registration order, `continue` past any
action whose disabled predicate holds, and return at the first action whose
shortcut contains the key. Returns the action whose callback is handed to
`App.consumeKey`, if any. -/
def dispatch (actions : List Action) (key : String) : Option Action :=
  match actions with
  | [] => none
  | a :: rest =>
    if a.disabled then dispatch rest key
    else if a.shortcut.contains key then some a
    else dispatch rest key

/-- Modelled from the spec: `App.setKeyState(key, true)` lives in src/app.ts,
which is not among the source files; section 4.2 of the spec specifies that it
marks the key as currently held. The held-key set is modelled as a duplicate
free list. -/
def setKeyPressed (held : List String) (key : String) : List String :=
  if held.contains key then held else key :: held

/-- Modelled from the spec: `App.consumeKey(key, cb)` lives in src/app.ts,
which is not among the source files; section 4.2 of the spec specifies that if
the key is currently held it immediately clears the held flag and invokes the
callback, and otherwise does nothing. Returns the held set afterwards and
whether the callback was invoked. -/
def consumeKey (held : List String) (key : String) : List String × Bool :=
  if held.contains key then (held.erase key, true) else (held, false)

/-- `getActions` (src/index.ts lines 323-343) builds the rendered hint bar
from `App.actions`, filtering out exactly the hidden actions; the disabled
predicate only changes the styling of the entries that remain. This is the
list of actions the hint bar shows. -/
def visibleActions (actions : List Action) : List Action :=
  actions.filter (fun a => !a.hidden)

/-- Outcome of one invocation of the `input.on("data")` handler: the labels of
the action callbacks invoked (in order), whether the synthesized key-release
timer was scheduled, and the held-key set when the handler returns. -/
structure HandlerResult where
  invoked : List String
  releaseScheduled : Bool
  held : List String
  deriving DecidableEq

/-- The `input.on("data")` handler of src/index.ts lines 762-799: decode the
key, mark it held via `setKeyState(key, true)`, then run the dispatch loop;
on a match the handler calls `App.consumeKey(key, action.callback)` and
returns immediately, so only when the loop completes without firing does
execution reach the `setTimeout(100)` that schedules the synthesized key
release. The inline navigation branch (j / k / c and friends, lines 769-781)
only mutates the selection index and never returns, so it is omitted here. -/
def handleKeyData (actions : List Action) (held : List String) (key : String) :
    HandlerResult :=
  let held1 := setKeyPressed held key
  match dispatch actions key with
  | some a =>
    let r := consumeKey held1 key
    { invoked := if r.2 then [a.label] else []
      releaseScheduled := false
      held := r.1 }
  | none =>
    { invoked := [], releaseScheduled := true, held := held1 }

/-- Helper: after marking a key pressed, the held set contains it. -/
theorem setKeyPressed_contains (held : List String) (key : String) :
    (setKeyPressed held key).contains key = true := by
  unfold setKeyPressed
  split
  · assumption
  · simp

/-- Helper: the dispatch loop returns the first eligible action of the list. -/
theorem dispatch_eq_first_eligible (key : String) :
    ∀ (pre post : List Action) (a : Action),
      eligible key a = true →
      (∀ b ∈ pre, eligible key b = false) →
      dispatch (pre ++ a :: post) key = some a := by
  intro pre
  induction pre with
  | nil =>
    intro post a ha _
    have hdis : a.disabled = false := by
      rcases Bool.and_eq_true .. |>.mp ha with ⟨h1, _⟩
      simpa using h1
    have hsc : key ∈ a.shortcut := by
      rcases Bool.and_eq_true .. |>.mp ha with ⟨_, h2⟩
      simpa using h2
    simp [dispatch, hdis, hsc]
  | cons b pre ih =>
    intro post a ha hpre
    have hb : eligible key b = false := hpre b (List.mem_cons_self b pre)
    have hrest : dispatch (pre ++ a :: post) key = some a :=
      ih post a ha (fun c hc => hpre c (List.mem_cons_of_mem b hc))
    by_cases hdis : b.disabled
    · simpa [dispatch, hdis] using hrest
    · have hsc : key ∉ b.shortcut := by
        unfold eligible at hb
        simpa [hdis] using hb
      simpa [dispatch, hdis, hsc] using hrest

/-- Helper: one handler invocation fires at most one callback. -/
theorem handleKeyData_invoked_length_le_one (actions : List Action)
    (held : List String) (key : String) :
    (handleKeyData actions held key).invoked.length ≤ 1 := by
  unfold handleKeyData
  cases dispatch actions key with
  | none => simp
  | some a =>
    simp only []
    split <;> simp

/-- Helper: when dispatch finds an action, the handler invokes exactly its
callback (the key was just marked held, so consumeKey fires). -/
theorem handleKeyData_invoked_of_dispatch (actions : List Action)
    (held : List String) (key : String) (a : Action)
    (h : dispatch actions key = some a) :
    (handleKeyData actions held key).invoked = [a.label] := by
  unfold handleKeyData
  rw [h]
  simp only [consumeKey, setKeyPressed_contains held key]
  simp

/-- C1: dispatching one key event invokes at most one action callback; the
action list is scanned in registration order, disabled actions are skipped,
and the first remaining action whose shortcut set contains the key has its
callback invoked (early return) — so of two enabled actions sharing a
shortcut, the earlier-registered one always wins. -/
theorem dispatch_first_eligible_wins (pre post : List Action) (a : Action)
    (key : String) (held : List String)
    (ha : eligible key a = true)
    (hpre : ∀ b ∈ pre, eligible key b = false) :
    (handleKeyData (pre ++ a :: post) held key).invoked = [a.label] ∧
    ∀ (acts : List Action) (held2 : List String),
      (handleKeyData acts held2 key).invoked.length ≤ 1 := by
  constructor
  · exact handleKeyData_invoked_of_dispatch _ held key a
      (dispatch_eq_first_eligible key pre post a ha hpre)
  · intro acts held2
    exact handleKeyData_invoked_length_le_one acts held2 key

/-- Witness for C1: two actions registered with the same shortcut "d"; the
earlier one is disabled, so the second fires; concretely only one callback is
invoked. -/
theorem dispatch_first_eligible_wins_witness :
    (handleKeyData
      [⟨"disabled-delete", ["d"], true, false⟩,
       ⟨"delete", ["d"], false, false⟩] [] "d").invoked = ["delete"] :=
  (dispatch_first_eligible_wins [⟨"disabled-delete", ["d"], true, false⟩] []
    ⟨"delete", ["d"], false, false⟩ "d" [] (by decide) (by decide)).1

/-- C7: the hidden flag only affects rendering — a hidden action is excluded
from the hint bar built by getActions, but when its disabled predicate is
false and it is the first eligible match for the arriving key, the dispatch
loop still resolves to it and its callback is invoked. -/
theorem hidden_actions_still_dispatch (pre post : List Action) (a : Action)
    (key : String) (held : List String)
    (hhid : a.hidden = true) (hdis : a.disabled = false)
    (hkey : a.shortcut.contains key = true)
    (hpre : ∀ b ∈ pre, eligible key b = false) :
    a ∉ visibleActions (pre ++ a :: post) ∧
    dispatch (pre ++ a :: post) key = some a ∧
    (handleKeyData (pre ++ a :: post) held key).invoked = [a.label] := by
  have ha : eligible key a = true := by
    have hk2 : key ∈ a.shortcut := by simpa using hkey
    unfold eligible
    simp [hdis, hk2]
  have hd : dispatch (pre ++ a :: post) key = some a :=
    dispatch_eq_first_eligible key pre post a ha hpre
  refine ⟨?_, hd, handleKeyData_invoked_of_dispatch _ held key a hd⟩
  intro hmem
  have := (List.mem_filter.mp hmem).2
  simp [hhid] at this

/-- Witness for C7: a hidden, enabled "open" action bound to Enter is not in
the hint bar, yet pressing its key invokes it. -/
theorem hidden_actions_still_dispatch_witness :
    Action.mk "open" ["\r"] false true ∉
      visibleActions [⟨"open", ["\r"], false, true⟩] ∧
    (handleKeyData [⟨"open", ["\r"], false, true⟩] [] "\r").invoked = ["open"] :=
  ⟨(hidden_actions_still_dispatch [] [] ⟨"open", ["\r"], false, true⟩ "\r" []
      rfl rfl (by decide) (by simp)).1,
   (hidden_actions_still_dispatch [] [] ⟨"open", ["\r"], false, true⟩ "\r" []
      rfl rfl (by decide) (by simp)).2.2⟩

/-- The claim of C5 as stated: for every action list, held set and key,
handling one raw input chunk schedules the synthesized key release. -/
def releaseAlwaysScheduledStated : Prop :=
  ∀ (actions : List Action) (held : List String) (key : String),
    (handleKeyData actions held key).releaseScheduled = true

/-- C5 counterexample: when an enabled action matches the key, the handler
returns from inside the dispatch loop before reaching the setTimeout call, so
no release is scheduled for that chunk — concretely for a single "quit" action
bound to "q" and the key "q". -/
theorem release_not_always_scheduled : ¬ releaseAlwaysScheduledStated := by
  intro h
  have hq := h [⟨"quit", ["q"], false, true⟩] [] "q"
  exact absurd hq (by decide)

/-- C5 amended: the synthesized key release (held state set back to false
after the fixed ~100ms delay) is scheduled by the data handler exactly when
the dispatch step fired no action callback; when an action fires, the handler
returns early and consumeKey clears the held state instead. -/
theorem release_scheduled_iff_no_action_fired (actions : List Action)
    (held : List String) (key : String) :
    (handleKeyData actions held key).releaseScheduled
      = (dispatch actions key).isNone := by
  unfold handleKeyData
  cases dispatch actions key <;> simp

/-! ## Application state of src/index.ts

Modelled from the spec: the App object lives in src/app.ts, which is not
among the source files. Its fields and the state operations below follow
sections 3 and 4.4 of the spec and the concrete `State` object plus
`setStatus` / `setTaskStatus` / `clearTaskStatus` of src/index.js (lines
767-849), which the spec describes as the same design. Association lists
stand for the JS record objects (assigning a key overwrites it; a `null`
entry renders as no status, so clearing is modelled as removal). -/

/-- A cached task as stored in `App.tasks` (the TaskSchema shape of
src/service/clickup.ts lines 16-27 after mapping). -/
structure Task where
  id : String
  name : String
  statusId : String
  statusLabel : String
  listId : String
  deriving DecidableEq

/-- The App state fields the embedded operations touch: current page, the
single-slot previous page, the global status, the per-branch task statuses,
the worktree paths with the selection index, the in-memory task cache, and
the last contents written to the tasks file (`none` when no write happened
in the modelled window). -/
structure AppState where
  page : String
  prevPage : Option String
  status : Option Status
  taskStatus : List (String × Status)
  paths : List String
  selected : Nat
  tasks : List (String × Task)
  persistedTasks : Option (List (String × Task))
  deriving DecidableEq

/-- Modelled from the spec (section 4.4) and `State.toMode` of src/index.js:
`App.toPage(p)` records the current page as the previous one and makes `p`
current. (The token-page text-buffer reset concerns the form subsystem and is
not needed by the flows below.) -/
def AppState.toPage (s : AppState) (p : String) : AppState :=
  { s with prevPage := some s.page, page := p }

/-- `App.setStatus(type, message, timeout?)`, per `setStatus` of src/index.js
lines 809-818: stores the status object; without a timeout it is sticky. -/
def AppState.setStatus (s : AppState) (ty msg : String) (t : Option Nat) :
    AppState :=
  { s with status := some ⟨ty, msg, t⟩ }

/-- `App.clearStatus()`, per `clearStatus` of src/index.js lines 820-822. -/
def AppState.clearStatus (s : AppState) : AppState :=
  { s with status := none }

/-- `App.setTaskStatus(branch, type, message, timeout?)`, per `setTaskStatus`
of src/index.js lines 830-838: overwrites that branch's entry. -/
def AppState.setTaskStatus (s : AppState) (branch ty msg : String)
    (t : Option Nat) : AppState :=
  { s with taskStatus :=
      (branch, ⟨ty, msg, t⟩) :: s.taskStatus.filter (fun p => !(p.1 == branch)) }

/-- `App.clearTaskStatus(branch)` for one branch, per `clearTaskStatus` of
src/index.js lines 843-849 (sets the entry to null, i.e. no status). -/
def AppState.clearTaskStatus (s : AppState) (branch : String) : AppState :=
  { s with taskStatus := s.taskStatus.filter (fun p => !(p.1 == branch)) }

/-- `App.clearTaskStatus()` with no argument, per src/index.js lines 843-849:
resets the whole record. -/
def AppState.clearAllTaskStatus (s : AppState) : AppState :=
  { s with taskStatus := [] }

/-- Assignment `App.tasks[taskId] = task` (src/index.ts line 621). -/
def AppState.setTask (s : AppState) (taskId : String) (t : Task) : AppState :=
  { s with tasks := (taskId, t) :: s.tasks.filter (fun p => !(p.1 == taskId)) }

/-- `getTaskFromPath` of src/utils.ts lines 6-8: Node `basename`, i.e. the
last slash-separated component (paths here carry no trailing slash). -/
def getTaskFromPath (path : String) : String :=
  (path.splitOn "/").getLastD ""

/-- Modelled from the spec and `getSelectedBranch` of src/index.js lines
1307-1310: `App.getSelectedBranch()` is the basename of the selected path. -/
def AppState.getSelectedBranch (s : AppState) : String :=
  getTaskFromPath (s.paths.getD s.selected "")

/-- `saveTasksFile` (src/index.ts lines 635-638): serializes the in-memory
task cache and writes it to the tasks file; modelled as recording the cache
as the persisted contents. -/
def saveTasksFile (s : AppState) : AppState :=
  { s with persistedTasks := some s.tasks }

/-! ## The delete flow (claim C3)

src/index.ts: `deleteConfirmation` lines 683-687, the `delete-worktree` page
actions lines 182-192, `deleteSelectedWorktree` lines 689-705. The
`execSync("git worktree remove ...")` call is the VCS-executor collaborator;
its outcome is passed in as a parameter. -/

/-- `deleteConfirmation` (src/index.ts lines 683-687): go to the
delete-worktree page and put a confirmation prompt on the selected branch. -/
def deleteConfirmation (s : AppState) : AppState :=
  let branch := s.getSelectedBranch
  (s.toPage "delete-worktree").setTaskStatus branch "confirmation"
    "are you sure?" none

/-- The "no" action of the delete-worktree page (src/index.ts lines 186-191):
clear the task statuses and go back to idle; nothing is removed. -/
def deleteWorktreeNo (s : AppState) : AppState :=
  s.clearAllTaskStatus.toPage "idle"

/-- The "yes" action of the delete-worktree page: `deleteSelectedWorktree`
(src/index.ts lines 689-705) once the git call settles. Returns the new state
together with the command string handed to the VCS executor. On success the
page becomes delete-branch with a new confirmation prompt; on failure an
error task status is set and the page goes back to idle. -/
def deleteSelectedWorktree (s : AppState) (gitResult : Except String Unit) :
    AppState × String :=
  let branch := s.getSelectedBranch
  let s1 := s.setTaskStatus branch "info" "deleting worktree..." none
  let cmd := "git worktree remove " ++ branch
  match gitResult with
  | .ok _ =>
    ((((s1.toPage "delete-branch").setStatus "success" "worktree deleted"
        (some 3000)).setTaskStatus branch "confirmation" "delete branch?" none),
      cmd)
  | .error e =>
    ((s1.setTaskStatus branch "error" ("unable to delete worktree: " ++ e)
        none).toPage "idle", cmd)

/-! ## Task refetching (claim C2)

src/index.ts: `refetchTasks` lines 587-615 and `fetchTask` lines 617-627.
The outcome of each `Clickup.getTask(taskId)` call is a parameter
(`fetchResult`); the functions below give the state once every promise has
settled. `Promise.all` resolves exactly when every fetch succeeded, and only
then are `saveTasksFile()` and the success status run; any rejection lands in
the catch block instead, which only sets the aggregate info status. -/

/-- Whether a fetch outcome is a success. -/
def fetchOk (r : Except String Task) : Bool :=
  match r with
  | .ok _ => true
  | .error _ => false

/-- `fetchTask(taskId)` (src/index.ts lines 617-627) once settled: an info
per-task status is set up front; on success the fetched task is stored in
`App.tasks` and the per-task status cleared; on failure the per-task status
becomes a clickup error (and the promise rejects). -/
def fetchTaskSettled (fetchResult : String → Except String Task)
    (s : AppState) (taskId : String) : AppState :=
  let s1 := s.setTaskStatus taskId "info" "fetching task information..." none
  match fetchResult taskId with
  | .ok t => (s1.setTask taskId t).clearTaskStatus taskId
  | .error e =>
    s1.setTaskStatus taskId "error" ("clickup error: " ++ e) none

/-- `refetchTasks(tasks)` (src/index.ts lines 587-615) once every fetch has
settled: with no token it routes to the token page; with an empty list it
does nothing; otherwise it sets the aggregate info status, fires every fetch,
and after `Promise.all` settles either persists the cache and reports success
(all fetches succeeded) or only sets the aggregate "unable to update tasks"
info status (some fetch failed). -/
def refetchTasksSettled (token : Option String)
    (fetchResult : String → Except String Task)
    (s : AppState) (taskIds : List String) : AppState :=
  match token with
  | none => s.toPage "token"
  | some _ =>
    if taskIds.isEmpty then s
    else
      let s1 := s.setStatus "info"
        ("Fetching information from: " ++ String.intercalate ", " taskIds) none
      let s2 := taskIds.foldl (fetchTaskSettled fetchResult) s1
      if taskIds.all (fun id => fetchOk (fetchResult id)) then
        (saveTasksFile s2).setStatus "success" "Information updated" (some 3000)
      else
        s2.setStatus "info" "unable to update tasks" (some 3000)

/-! ## Render-tick status and action enabling (claim C8)

src/index.ts: `loop` lines 438-457 (status maintenance at 450-454) and the
idle-page `update` / `edit` / `token` action declarations of `setupActions`
at lines 116-131. `searching` is `App.mode === "search"`, captured at the
tick that rebuilds the actions. -/

/-- The status maintenance step of `loop` (src/index.ts lines 450-454): with
no token, set the sticky "Missing CLICKUP_TOKEN" error status; otherwise
clear the status exactly when its message mentions CLICKUP_TOKEN. -/
def loopStatusUpdate (token : Option String) (status : Option Status) :
    Option Status :=
  match token with
  | none => some ⟨"error", "Missing CLICKUP_TOKEN", none⟩
  | some _ =>
    match status with
    | some st => if strIncludes st.message "CLICKUP_TOKEN" then none else some st
    | none => none

/-- The disabled predicate of the idle `update` action (src/index.ts line
118): `searching || !App.token`. -/
def idleUpdateDisabled (searching : Bool) (token : Option String) : Bool :=
  searching || token.isNone

/-- The disabled predicate of the idle `edit` action (src/index.ts lines
123-124): `searching || !App.token || !isTask(App.getSelectedBranch())`. -/
def idleEditDisabled (searching : Bool) (token : Option String)
    (isTaskSelected : Bool) : Bool :=
  searching || token.isNone || !isTaskSelected

/-- The disabled predicate of the idle `token` action (src/index.ts line
129): `searching || !!App.token`. -/
def idleTokenDisabled (searching : Bool) (token : Option String) : Bool :=
  searching || token.isSome

/-! ## Association-list helpers for the JS record objects -/

/-- Helper: looking up the key just assigned yields the new value. -/
theorem lookup_cons_self {α : Type} (k : String) (v : α) (l : List (String × α)) :
    List.lookup k ((k, v) :: l) = some v := by
  simp [List.lookup]

/-- Helper: assigning another key leaves a lookup unchanged. -/
theorem lookup_cons_ne {α : Type} (j k : String) (v : α) (l : List (String × α))
    (h : j ≠ k) :
    List.lookup j ((k, v) :: l) = List.lookup j l := by
  simp [List.lookup, beq_eq_false_iff_ne.mpr h]

/-- Helper: removing the entries of another key leaves a lookup unchanged. -/
theorem lookup_filter_ne {α : Type} (j k : String) (l : List (String × α))
    (h : j ≠ k) :
    List.lookup j (l.filter (fun p => !(p.1 == k))) = List.lookup j l := by
  induction l with
  | nil => rfl
  | cons hd tl ih =>
    rcases hd with ⟨a, v⟩
    rw [List.filter_cons]
    by_cases hak : a = k
    · subst hak
      have h1 : (!((a, v).1 == a)) = false := by simp
      rw [h1]
      simp only [Bool.false_eq_true, if_false]
      rw [lookup_cons_ne j a v tl h]
      exact ih
    · have h1 : (!((a, v).1 == k)) = true := by simp [hak]
      rw [h1]
      simp only [if_true]
      by_cases hja : j = a
      · subst hja
        rw [lookup_cons_self, lookup_cons_self]
      · rw [lookup_cons_ne j a v _ hja, lookup_cons_ne j a v tl hja]
        exact ih

/-- C3: from the idle page, the delete action moves to the delete-worktree
page and puts a confirmation containing "are you sure?" on the selected
branch; there "no" clears the task statuses and returns to idle with the
paths untouched, while "yes" issues a git worktree-remove command for the
selected branch and on success moves to the delete-branch page with a new
confirmation prompt, on failure sets an error task status and returns to
idle. -/
theorem delete_flow (s : AppState) (e : String) (hidle : s.page = "idle") :
    (deleteConfirmation s).page = "delete-worktree" ∧
    (deleteConfirmation s).prevPage = some "idle" ∧
    (∃ st, (deleteConfirmation s).taskStatus.lookup s.getSelectedBranch
        = some st ∧
      st.type = "confirmation" ∧ strIncludes st.message "are you sure?" = true) ∧
    (deleteWorktreeNo (deleteConfirmation s)).page = "idle" ∧
    (deleteWorktreeNo (deleteConfirmation s)).taskStatus = [] ∧
    (deleteWorktreeNo (deleteConfirmation s)).paths = s.paths ∧
    (deleteSelectedWorktree (deleteConfirmation s) (Except.ok ())).2
      = "git worktree remove " ++ s.getSelectedBranch ∧
    (deleteSelectedWorktree (deleteConfirmation s) (Except.ok ())).1.page
      = "delete-branch" ∧
    (∃ st, (deleteSelectedWorktree (deleteConfirmation s)
        (Except.ok ())).1.taskStatus.lookup s.getSelectedBranch = some st ∧
      st.type = "confirmation") ∧
    (deleteSelectedWorktree (deleteConfirmation s) (Except.error e)).1.page
      = "idle" ∧
    (∃ st, (deleteSelectedWorktree (deleteConfirmation s)
        (Except.error e)).1.taskStatus.lookup s.getSelectedBranch = some st ∧
      st.type = "error") := by
  refine ⟨rfl, by simp [deleteConfirmation, AppState.toPage, AppState.setTaskStatus, hidle],
    ⟨⟨"confirmation", "are you sure?", none⟩, lookup_cons_self .., rfl, by decide⟩,
    rfl, rfl, rfl, rfl, rfl,
    ⟨⟨"confirmation", "delete branch?", none⟩, lookup_cons_self .., rfl⟩,
    rfl,
    ⟨⟨"error", "unable to delete worktree: " ++ e, none⟩, lookup_cons_self .., rfl⟩⟩

/-- Witness for C3 at a concrete one-worktree state whose selected branch is
"abc123". -/
theorem delete_flow_witness :
    (deleteConfirmation
      ⟨"idle", none, none, [], ["/w/abc123"], 0, [], none⟩).page
        = "delete-worktree" ∧
    (deleteSelectedWorktree
      (deleteConfirmation ⟨"idle", none, none, [], ["/w/abc123"], 0, [], none⟩)
      (Except.error "boom")).1.page = "idle" :=
  ⟨(delete_flow ⟨"idle", none, none, [], ["/w/abc123"], 0, [], none⟩ "boom"
      rfl).1,
   (delete_flow ⟨"idle", none, none, [], ["/w/abc123"], 0, [], none⟩ "boom"
      rfl).2.2.2.2.2.2.2.2.2.1⟩

/-! ## Claim C2: refetchTasks with a partial failure -/

/-- Helper: the lookup of the task just stored by setTask. -/
theorem setTask_lookup_self (s : AppState) (taskId : String) (t : Task) :
    (s.setTask taskId t).tasks.lookup taskId = some t :=
  lookup_cons_self ..

/-- Helper: setTask leaves other task lookups unchanged. -/
theorem setTask_lookup_ne (s : AppState) (taskId j : String) (t : Task)
    (h : j ≠ taskId) :
    (s.setTask taskId t).tasks.lookup j = s.tasks.lookup j := by
  unfold AppState.setTask
  rw [lookup_cons_ne j taskId t _ h]
  exact lookup_filter_ne j taskId s.tasks h

/-- Helper: the lookup of the status just set by setTaskStatus. -/
theorem setTaskStatus_lookup_self (s : AppState) (b ty msg : String)
    (t : Option Nat) :
    (s.setTaskStatus b ty msg t).taskStatus.lookup b = some ⟨ty, msg, t⟩ :=
  lookup_cons_self ..

/-- Helper: setTaskStatus leaves other branches' statuses unchanged. -/
theorem setTaskStatus_lookup_ne (s : AppState) (b ty msg : String)
    (t : Option Nat) (j : String) (h : j ≠ b) :
    (s.setTaskStatus b ty msg t).taskStatus.lookup j
      = s.taskStatus.lookup j := by
  unfold AppState.setTaskStatus
  rw [lookup_cons_ne j b _ _ h]
  exact lookup_filter_ne j b s.taskStatus h

/-- Helper: clearTaskStatus leaves other branches' statuses unchanged. -/
theorem clearTaskStatus_lookup_ne (s : AppState) (b j : String) (h : j ≠ b) :
    (s.clearTaskStatus b).taskStatus.lookup j = s.taskStatus.lookup j :=
  lookup_filter_ne j b s.taskStatus h

/-- Helper: a settled fetchTask does not touch the persisted tasks file. -/
theorem fetchTaskSettled_persisted (f : String → Except String Task)
    (s : AppState) (taskId : String) :
    (fetchTaskSettled f s taskId).persistedTasks = s.persistedTasks := by
  unfold fetchTaskSettled
  cases f taskId <;> rfl

/-- Helper: a settled successful fetchTask stores the fetched task. -/
theorem fetchTaskSettled_tasks_ok (f : String → Except String Task)
    (s : AppState) (taskId : String) (t : Task) (hf : f taskId = Except.ok t) :
    (fetchTaskSettled f s taskId).tasks.lookup taskId = some t := by
  unfold fetchTaskSettled
  rw [hf]
  exact setTask_lookup_self ..

/-- Helper: a settled fetchTask leaves other ids' cached tasks unchanged. -/
theorem fetchTaskSettled_tasks_ne (f : String → Except String Task)
    (s : AppState) (taskId j : String) (h : j ≠ taskId) :
    (fetchTaskSettled f s taskId).tasks.lookup j = s.tasks.lookup j := by
  unfold fetchTaskSettled
  cases f taskId with
  | ok t => exact setTask_lookup_ne _ taskId j t h
  | error e => rfl

/-- Helper: a settled failed fetchTask leaves the clickup error as that id's
task status. -/
theorem fetchTaskSettled_status_err (f : String → Except String Task)
    (s : AppState) (taskId e : String) (hf : f taskId = Except.error e) :
    (fetchTaskSettled f s taskId).taskStatus.lookup taskId
      = some ⟨"error", "clickup error: " ++ e, none⟩ := by
  unfold fetchTaskSettled
  rw [hf]
  exact setTaskStatus_lookup_self ..

/-- Helper: a settled fetchTask leaves other ids' task statuses unchanged. -/
theorem fetchTaskSettled_status_ne (f : String → Except String Task)
    (s : AppState) (taskId j : String) (h : j ≠ taskId) :
    (fetchTaskSettled f s taskId).taskStatus.lookup j
      = s.taskStatus.lookup j := by
  unfold fetchTaskSettled
  cases f taskId with
  | ok t =>
    rw [clearTaskStatus_lookup_ne _ taskId j h]
    exact setTaskStatus_lookup_ne s taskId _ _ _ j h
  | error e =>
    rw [setTaskStatus_lookup_ne _ taskId _ _ _ j h]
    exact setTaskStatus_lookup_ne s taskId _ _ _ j h

/-- Helper: folding settled fetches never writes the tasks file. -/
theorem foldl_fetch_persisted (f : String → Except String Task)
    (ids : List String) :
    ∀ s : AppState,
      (ids.foldl (fetchTaskSettled f) s).persistedTasks = s.persistedTasks := by
  induction ids with
  | nil => intro s; rfl
  | cons hd tl ih =>
    intro s
    rw [List.foldl_cons, ih, fetchTaskSettled_persisted]

/-- Helper: after folding settled fetches, an id fetched successfully is in
the cache (when the id was among those fetched). -/
theorem foldl_fetch_tasks_ok (f : String → Except String Task)
    (taskId : String) (t : Task) (hf : f taskId = Except.ok t)
    (ids : List String) :
    ∀ s : AppState,
      (ids.foldl (fetchTaskSettled f) s).tasks.lookup taskId
        = if taskId ∈ ids then some t else s.tasks.lookup taskId := by
  induction ids with
  | nil => intro s; simp
  | cons hd tl ih =>
    intro s
    rw [List.foldl_cons, ih]
    by_cases hid : taskId = hd
    · subst hid
      by_cases hmem : taskId ∈ tl
      · simp [hmem]
      · simp [hmem, fetchTaskSettled_tasks_ok f s taskId t hf]
    · rw [fetchTaskSettled_tasks_ne f s hd taskId hid]
      simp [List.mem_cons, hid]

/-- Helper: after folding settled fetches, an id whose fetch failed carries
the clickup error status (when the id was among those fetched). -/
theorem foldl_fetch_status_err (f : String → Except String Task)
    (taskId e : String) (hf : f taskId = Except.error e)
    (ids : List String) :
    ∀ s : AppState,
      (ids.foldl (fetchTaskSettled f) s).taskStatus.lookup taskId
        = if taskId ∈ ids then some ⟨"error", "clickup error: " ++ e, none⟩
          else s.taskStatus.lookup taskId := by
  induction ids with
  | nil => intro s; simp
  | cons hd tl ih =>
    intro s
    rw [List.foldl_cons, ih]
    by_cases hid : taskId = hd
    · subst hid
      by_cases hmem : taskId ∈ tl
      · simp [hmem]
      · simp [hmem, fetchTaskSettled_status_err f s taskId e hf]
    · rw [fetchTaskSettled_status_ne f s hd taskId hid]
      simp [List.mem_cons, hid]

/-- C2 amended: refetchTasks on a non-empty id list with a token, when at
least one fetch fails and at least one succeeds, ends (once everything has
settled) with the aggregate info status "unable to update tasks" — not a
success message; every successfully fetched task is stored in the in-memory
cache; every failed id keeps its per-task clickup error status; but the
updated cache is NOT persisted — the tasks-file write is reached only when
all fetches succeed, so the persisted contents are unchanged. -/
theorem refetchTasks_failure_effects (tok : String)
    (f : String → Except String Task) (s : AppState) (taskIds : List String)
    (hne : taskIds ≠ [])
    (hfail : ∃ id ∈ taskIds, fetchOk (f id) = false)
    (hok : ∃ id ∈ taskIds, fetchOk (f id) = true) :
    (refetchTasksSettled (some tok) f s taskIds).status
      = some ⟨"info", "unable to update tasks", some 3000⟩ ∧
    (∀ id ∈ taskIds, ∀ t, f id = Except.ok t →
      (refetchTasksSettled (some tok) f s taskIds).tasks.lookup id = some t) ∧
    (refetchTasksSettled (some tok) f s taskIds).persistedTasks
      = s.persistedTasks ∧
    (∀ id ∈ taskIds, ∀ e, f id = Except.error e →
      (refetchTasksSettled (some tok) f s taskIds).taskStatus.lookup id
        = some ⟨"error", "clickup error: " ++ e, none⟩) := by
  have hempty : taskIds.isEmpty = false := by
    cases taskIds with
    | nil => exact absurd rfl hne
    | cons a l => rfl
  have hall : (taskIds.all fun id => fetchOk (f id)) = false := by
    rcases hfail with ⟨id, hmem, hfo⟩
    cases hb : taskIds.all fun id => fetchOk (f id) with
    | false => rfl
    | true => exact absurd (List.all_eq_true.mp hb id hmem) (by simp [hfo])
  simp only [refetchTasksSettled, hempty, hall, Bool.false_eq_true, if_false]
  refine ⟨rfl, ?_, ?_, ?_⟩
  · intro id hmem t hf
    show (List.foldl (fetchTaskSettled f) _ taskIds).tasks.lookup id = some t
    rw [foldl_fetch_tasks_ok f id t hf taskIds]
    simp [hmem]
  · show (List.foldl (fetchTaskSettled f) _ taskIds).persistedTasks
      = s.persistedTasks
    rw [foldl_fetch_persisted]
    rfl
  · intro id hmem e hf
    show (List.foldl (fetchTaskSettled f) _ taskIds).taskStatus.lookup id
      = some ⟨"error", "clickup error: " ++ e, none⟩
    rw [foldl_fetch_status_err f id e hf taskIds]
    simp [hmem]

/-- The fetch-outcome function of the concrete refresh-all scenario: ids "a"
and "b" succeed, id "c" fails. -/
def exFetch : String → Except String Task :=
  fun id =>
    if id = "c" then Except.error "boom"
    else Except.ok ⟨id, "task", "s1", "open", "l1"⟩

/-- The claim of C2 as stated: in the same scenario, besides the aggregate
non-success status, the cached successes and the per-task failure statuses,
the updated task cache is also persisted (written to the tasks file). -/
def refetchPersistsOnFailureStated : Prop :=
  ∀ (tok : String) (f : String → Except String Task) (s : AppState)
    (taskIds : List String),
    taskIds ≠ [] →
    (∃ id ∈ taskIds, fetchOk (f id) = false) →
    (∃ id ∈ taskIds, fetchOk (f id) = true) →
    (∀ st, (refetchTasksSettled (some tok) f s taskIds).status = some st →
      st.type ≠ "success") ∧
    (∀ id ∈ taskIds, ∀ t, f id = Except.ok t →
      (refetchTasksSettled (some tok) f s taskIds).tasks.lookup id = some t) ∧
    (refetchTasksSettled (some tok) f s taskIds).persistedTasks
      = some (refetchTasksSettled (some tok) f s taskIds).tasks ∧
    (∀ id ∈ taskIds, ∀ e, f id = Except.error e →
      (refetchTasksSettled (some tok) f s taskIds).taskStatus.lookup id
        = some ⟨"error", "clickup error: " ++ e, none⟩)

/-- C2 counterexample: with ids ["a", "b", "c"] where "a" and "b" succeed and
"c" fails, starting from a state that has never written the tasks file, the
settled refetch leaves the persisted contents at none — saveTasksFile sits
after the Promise.all await inside the try block, so the rejection skips it
and nothing is written. -/
theorem refetch_not_persisted_on_failure : ¬ refetchPersistsOnFailureStated := by
  intro h
  have h2 := h "tok" exFetch ⟨"idle", none, none, [], [], 0, [], none⟩
    ["a", "b", "c"] (by decide) (by decide) (by decide)
  exact absurd h2.2.2.1 (by decide)

/-- Witness for the amended C2 at the concrete scenario: nothing was
persisted, yet the succeeded task "a" is in the cache. -/
theorem refetchTasks_failure_effects_witness :
    (refetchTasksSettled (some "tok") exFetch
      ⟨"idle", none, none, [], [], 0, [], none⟩
      ["a", "b", "c"]).persistedTasks = none ∧
    (refetchTasksSettled (some "tok") exFetch
      ⟨"idle", none, none, [], [], 0, [], none⟩
      ["a", "b", "c"]).tasks.lookup "a"
      = some ⟨"a", "task", "s1", "open", "l1"⟩ := by
  have h := refetchTasks_failure_effects "tok" exFetch
    ⟨"idle", none, none, [], [], 0, [], none⟩ ["a", "b", "c"]
    (by decide) (by decide) (by decide)
  exact ⟨h.2.2.1.trans rfl,
    h.2.1 "a" (by decide) ⟨"a", "task", "s1", "open", "l1"⟩ rfl⟩

/-! ## Claim C8: missing-token render ticks -/

/-- The claim of C8 as stated: whenever no token is set, a tick leaves a
sticky error status mentioning CLICKUP_TOKEN, the remote-dependent idle
actions (update, edit) are disabled and the token action is enabled — for
every value of the search flag — and once a token is set, a status mentioning
CLICKUP_TOKEN is cleared on the next tick. -/
def missingTokenTickStated : Prop :=
  (∀ (status : Option Status) (searching isTaskSelected : Bool),
    (∃ st, loopStatusUpdate none status = some st ∧ st.type = "error" ∧
      st.timeout = none ∧ strIncludes st.message "CLICKUP_TOKEN" = true) ∧
    idleUpdateDisabled searching none = true ∧
    idleEditDisabled searching none isTaskSelected = true ∧
    idleTokenDisabled searching none = false) ∧
  (∀ (tok : String) (st : Status),
    strIncludes st.message "CLICKUP_TOKEN" = true →
    loopStatusUpdate (some tok) (some st) = none)

/-- C8 counterexample: on a tick taken while the list filter (search) mode is
active, the token action's disabled predicate `searching || !!App.token` is
true even with no token set, so the credential-entry action is not enabled on
every no-token tick. -/
theorem token_action_disabled_while_searching : ¬ missingTokenTickStated := by
  intro h
  exact absurd (h.1 none true true).2.2.2 (by decide)

/-- C8 amended: whenever no token is set, each render tick sets a sticky
error status whose message contains "CLICKUP_TOKEN", and the idle update and
edit actions are disabled (for every search-flag value); the token action is
enabled provided search mode is not active (search disables all idle
actions, the token action included). Once a token is set, a status whose
message contains "CLICKUP_TOKEN" is cleared on the next tick. -/
theorem missing_token_tick (status : Option Status)
    (searching isTaskSelected : Bool) :
    (∃ st, loopStatusUpdate none status = some st ∧ st.type = "error" ∧
      st.timeout = none ∧ strIncludes st.message "CLICKUP_TOKEN" = true) ∧
    idleUpdateDisabled searching none = true ∧
    idleEditDisabled searching none isTaskSelected = true ∧
    idleTokenDisabled false none = false ∧
    (∀ (tok : String) (st : Status),
      strIncludes st.message "CLICKUP_TOKEN" = true →
      loopStatusUpdate (some tok) (some st) = none) := by
  refine ⟨⟨⟨"error", "Missing CLICKUP_TOKEN", none⟩, rfl, rfl, rfl, by decide⟩,
    ?_, ?_, rfl, ?_⟩
  · simp [idleUpdateDisabled]
  · simp [idleEditDisabled]
  · intro tok st hst
    simp [loopStatusUpdate, hst]

/-- Witness for the amended C8 at concrete inputs: the sticky error of a
no-token tick mentions CLICKUP_TOKEN, and a tick with the token set clears
that very status. -/
theorem missing_token_tick_witness :
    idleTokenDisabled false none = false ∧
    loopStatusUpdate (some "tok")
      (some ⟨"error", "Missing CLICKUP_TOKEN", none⟩) = none :=
  ⟨(missing_token_tick none false false).2.2.2.1,
   (missing_token_tick none false false).2.2.2.2 "tok"
     ⟨"error", "Missing CLICKUP_TOKEN", none⟩ (by decide)⟩

end WorktreeApp
